import Mathlib

/-! Verification development for the Flask scaffold generator
(`src/scaffold_generator.py`).

Python strings are embedded as lists of characters (`PyStr`); each Python
string operation the generator uses gets a small executable definition
below, and every definition is translated from the source file (line
numbers cited at each definition).  Multi-line generated artifacts are
embedded as their lists of lines (the split of the Python string on the
newline character); at each splice point (an f-string interpolation whose
value itself spans lines) the comment records how the pieces join. -/

/-- A Python string, embedded as its list of characters. -/
abbrev PyStr := List Char

/-- Literal conversion from a Lean string literal. -/
def py (s : String) : PyStr := s.data

/-- Python truthiness of an optional string (`None` and `""` are falsy). -/
def truthy : Option PyStr → Bool
  | none => false
  | some s => !s.isEmpty

/-- Python `sub in s` (substring containment). -/
def hasSub (s pat : PyStr) : Bool :=
  match s with
  | [] => pat.isEmpty
  | _ :: t => pat.isPrefixOf s || hasSub t pat

/-- Python `str.lower()` (per-character lowercasing, ASCII names only here). -/
def pyLower (s : PyStr) : PyStr := s.map Char.toLower

/-- Python `str.endswith(suffix)`. -/
def pyEndsWith (s suffix : PyStr) : Bool := List.isSuffixOf suffix s

/-- Python whitespace for `str.strip()`. -/
def isPySpace (c : Char) : Bool :=
  c = ' ' || c = '\t' || c = '\n' || c = '\x0d' || c = '\x0b' || c = '\x0c'

/-- Python `str.strip()`. -/
def pyStrip (s : PyStr) : PyStr :=
  ((s.dropWhile isPySpace).reverse.dropWhile isPySpace).reverse

/-- Python `str.split(sep)` for a one-character separator (no merging of
adjacent separators, as in Python). -/
def pySplit (sep : Char) : PyStr → List PyStr
  | [] => [[]]
  | c :: t =>
    if c = sep then [] :: pySplit sep t
    else
      match pySplit sep t with
      | h :: r => (c :: h) :: r
      | [] => [[c]]

/-- A character of the regex class `\w` (ASCII range, the one the models use). -/
def isWordChar (c : Char) : Bool := c.isAlphanum || c = '_'

/-- Decimal digits to a number (for the captured group of `db\.String\((\d+)\)`). -/
def digitsToNat (ds : PyStr) : Nat :=
  ds.foldl (fun n c => n * 10 + (c.toNat - 48)) 0

/-- Helper for `find_string_length`: after an occurrence of `db.String(`,
match `(\d+)\)`. -/
def string_length_at (s : PyStr) : Option Nat :=
  let p := s.span Char.isDigit
  if p.1 ≠ [] ∧ p.2.head? = some ')' then some (digitsToNat p.1) else none

/-- `re.search(r"db\.String\((\d+)\)", col_def)`, scaffold_generator.py:323:
the first position where the whole pattern matches, yielding the captured
number. -/
def find_string_length : PyStr → Option Nat
  | [] => none
  | s@(_ :: t) =>
    if List.isPrefixOf (py "db.String(") s then
      match string_length_at (s.drop 10) with
      | some n => some n
      | none => find_string_length t
    else find_string_length t

/-- Helper for `find_fk_target`: right after an occurrence of `ForeignKey(`,
match `['"](\w+)\.(\w+)['"]\)` and capture the two groups. -/
def fk_target_at (s : PyStr) : Option (PyStr × PyStr) :=
  match s with
  | [] => none
  | q :: rest =>
    if q = '\'' ∨ q = '"' then
      let p1 := rest.span isWordChar
      if p1.1 = [] then none
      else
        match p1.2 with
        | '.' :: r2 =>
          let p2 := r2.span isWordChar
          if p2.1 = [] then none
          else
            match p2.2 with
            | q2 :: ')' :: _ => if q2 = '\'' ∨ q2 = '"' then some (p1.1, p2.1) else none
            | _ => none
        | _ => none
    else none

/-- `re.search(r"ForeignKey\(['\"](\w+)\.(\w+)['\"]\)", col_def)`,
scaffold_generator.py:196: first match wins, later occurrences are tried
when an earlier `ForeignKey(` is not followed by the rest of the pattern. -/
def find_fk_target : PyStr → Option (PyStr × PyStr)
  | [] => none
  | s@(_ :: t) =>
    if List.isPrefixOf (py "ForeignKey(") s then
      match fk_target_at (s.drop 11) with
      | some r => some r
      | none => find_fk_target t
    else find_fk_target t

/-- The per-column field descriptor (the `field_info` dict of
`_parse_column_definition`, scaffold_generator.py:306-359, and of the live
introspection loop, scaffold_generator.py:374-408).  A key the Python code
never sets is a falsy absent key, embedded as `none` / `false`. -/
structure FieldInfo where
  name : PyStr
  type : PyStr
  nullable : Bool
  primary_key : Bool
  default : Option PyStr
  unique : Bool
  max_length : Option Nat
  skip_in_form : Bool
  deriving Repr, DecidableEq

/-- `_parse_column_definition`, scaffold_generator.py:306-359. -/
def parse_column_definition (col_name col_def : PyStr) : FieldInfo :=
  let t :=
    if hasSub col_def (py "db.Integer") then py "Integer"
    else if hasSub col_def (py "db.String") then py "String"
    else if hasSub col_def (py "db.Text") then py "Text"
    else if hasSub col_def (py "db.Boolean") then py "Boolean"
    else if hasSub col_def (py "db.DateTime") then py "DateTime"
    else if hasSub col_def (py "db.Date") then py "Date"
    else if hasSub col_def (py "db.Float") then py "Float"
    else if hasSub col_def (py "db.Numeric") then py "Numeric"
    else py "String"
  { name := col_name
    type := t
    nullable := !hasSub col_def (py "nullable=False")
    primary_key := hasSub col_def (py "primary_key=True")
    default := if hasSub col_def (py "default=datetime.utcnow")
               then some (py "datetime.utcnow") else none
    unique := hasSub col_def (py "unique=True")
    max_length := if hasSub col_def (py "db.String")
                  then find_string_length col_def else none
    skip_in_form := hasSub col_def (py "ForeignKey") }

/-- One foreign-key link (`foreign_key_relationships` entries,
scaffold_generator.py:209-213 and 420-424). -/
structure FkRel where
  field_name : PyStr
  ref_table : PyStr
  ref_column : PyStr
  deriving Repr, DecidableEq

/-- One declared association (`relationships` entries,
scaffold_generator.py:231-238 and 440-447). -/
structure RelDecl where
  name : PyStr
  target_model : PyStr
  backref : Option PyStr
  back_populates : Option PyStr
  is_many_to_many : Bool
  secondary_table : Option PyStr
  deriving Repr, DecidableEq

/-- One missing-foreign-key finding (`missing_fks` entries,
scaffold_generator.py:273-278 and 482-487). -/
structure MissingFk where
  relationship_name : PyStr
  target_model : PyStr
  missing_fk_column : PyStr
  target_table : PyStr
  deriving Repr, DecidableEq

/-- Result of the text-parsing column scan (scaffold_generator.py:183-213):
the `fields` mapping in insertion order, the owner foreign-key field, the
non-owner foreign-key count and the foreign-key links. -/
structure ParsedScan where
  fields : List (PyStr × FieldInfo)
  user_fk_field : Option PyStr
  non_user_fk_count : Nat
  fks : List FkRel
  deriving Repr, DecidableEq

/-- One iteration of the column loop of `_parse_models_from_file`,
scaffold_generator.py:189-213. -/
def scan_columns_step (st : ParsedScan) (cl : PyStr × PyStr) : ParsedScan :=
  let fields := st.fields ++ [(cl.1, parse_column_definition cl.1 cl.2)]
  if hasSub cl.2 (py "ForeignKey") then
    match find_fk_target cl.2 with
    | some (rt, rc) =>
      if rt = py "users" then
        { st with fields := fields, user_fk_field := some cl.1 }
      else
        { st with fields := fields,
                  non_user_fk_count := st.non_user_fk_count + 1,
                  fks := st.fks ++ [⟨cl.1, rt, rc⟩] }
    | none => { st with fields := fields }
  else { st with fields := fields }

/-- The column loop of `_parse_models_from_file`, scaffold_generator.py:183-213. -/
def scan_columns (cols : List (PyStr × PyStr)) : ParsedScan :=
  cols.foldl scan_columns_step ⟨[], none, 0, []⟩

/-- `_get_table_name_for_model`, scaffold_generator.py:97-117.  Every model
object in `self.models` carries both `__name__` and a table name (a live
model its `__tablename__`, a parsed one `_parsed_info['table_name']`, see
scaffold_generator.py:298-302), so the discovered-model list is embedded as
(name, table name) pairs. -/
def get_table_name_for_model (models : List (PyStr × PyStr))
    (all_models_info : List (PyStr × PyStr)) (model_name : PyStr) : PyStr :=
  match models.find? (fun m => m.1 = model_name) with
  | some m => m.2
  | none =>
    match all_models_info.find? (fun m => m.1 = model_name) with
    | some m => m.2
    | none =>
      if pyEndsWith model_name (py "s") then pyLower model_name ++ py "es"
      else if pyEndsWith model_name (py "y") then pyLower model_name.dropLast ++ py "ies"
      else pyLower model_name ++ py "s"

/-- The expected foreign-key column name for an association
(scaffold_generator.py:254-260, identically 463-469): the truthy backref,
else the truthy back_populates, else the resolved target table, plus
`_id`. -/
def expected_fk_col (rel : RelDecl) (target_table : PyStr) : PyStr :=
  if truthy rel.backref then rel.backref.getD [] ++ py "_id"
  else if truthy rel.back_populates then rel.back_populates.getD [] ++ py "_id"
  else target_table ++ py "_id"

/-- One iteration of the missing-foreign-key loop of the relationship
analyzer (scaffold_generator.py:242-281 in `_parse_models_from_file`; the
loop at scaffold_generator.py:451-490 in `extract_model_info` is the same
code over the same data, so both paths are embedded by this one function):
`none` when the association is skipped, `some` finding otherwise. -/
def check_rel (models : List (PyStr × PyStr)) (fks : List FkRel)
    (field_names : List PyStr) (rel : RelDecl) : Option MissingFk :=
  if rel.is_many_to_many then none
  else
    let target_table := get_table_name_for_model models [] rel.target_model
    let expected := expected_fk_col rel target_table
    if fks.any (fun fk => fk.ref_table = target_table) then none
    else if field_names.contains expected then none
    else some ⟨rel.name, rel.target_model, expected, target_table⟩

/-- The full missing-foreign-key list of one entity
(scaffold_generator.py:241-281 and 450-490). -/
def missing_fks_of (models : List (PyStr × PyStr)) (fks : List FkRel)
    (field_names : List PyStr) (rels : List RelDecl) : List MissingFk :=
  rels.filterMap (check_rel models fks field_names)

/-- A live (introspected) column as the generator reads it
(scaffold_generator.py:374-424): `foreign_keys` holds `str(fk.column)` for
each foreign key on the column, `length` the string length attribute when
present. -/
structure LiveColumn where
  name : PyStr
  type_name : PyStr
  nullable : Bool
  primary_key : Bool
  default : Option PyStr
  unique : Bool
  length : Option Nat
  foreign_keys : List PyStr
  deriving Repr, DecidableEq

/-- The field descriptor the live path builds for one column
(scaffold_generator.py:374-394). -/
def extract_live_field (c : LiveColumn) : FieldInfo :=
  { name := c.name
    type := c.type_name
    nullable := c.nullable
    primary_key := c.primary_key
    default := c.default
    unique := c.unique
    max_length := match c.length with
                  | some n => if n = 0 then none else some n
                  | none => none
    skip_in_form := !c.foreign_keys.isEmpty }

/-- Result of the live column loop (scaffold_generator.py:369-408). -/
structure LiveScan where
  fields : List (PyStr × FieldInfo)
  primary_key : Option PyStr
  user_fk_field : Option PyStr
  non_user_fk_count : Nat
  deriving Repr, DecidableEq

/-- One iteration of the live column loop, scaffold_generator.py:374-408:
the inner loop over the column's foreign keys marks the column as the owner
link when one of them is exactly `users.id` and counts every other one. -/
def live_scan_step (st : LiveScan) (c : LiveColumn) : LiveScan :=
  let fields := st.fields ++ [(c.name, extract_live_field c)]
  let pk := if c.primary_key then some c.name else st.primary_key
  if c.foreign_keys.isEmpty then
    { st with fields := fields, primary_key := pk }
  else
    let inner := c.foreign_keys.foldl
      (fun (p : Bool × Nat) fk =>
        if fk = py "users.id" then (true, p.2) else (p.1, p.2 + 1))
      (false, st.non_user_fk_count)
    { fields := fields
      primary_key := pk
      user_fk_field := if inner.1 then some c.name else st.user_fk_field
      non_user_fk_count := inner.2 }

/-- The live column loop of `extract_model_info`, scaffold_generator.py:369-408. -/
def live_scan (cols : List LiveColumn) : LiveScan :=
  cols.foldl live_scan_step ⟨[], none, none, 0⟩

/-- The live foreign-key-link extraction, scaffold_generator.py:411-424:
split `str(fk.column)` on `.`, keep the two-part ones not pointing at
`users`. -/
def live_fk_rels (cols : List LiveColumn) : List FkRel :=
  cols.flatMap (fun c =>
    c.foreign_keys.filterMap (fun fk =>
      match pySplit '.' fk with
      | [rt, rc] => if rt ≠ py "users" then some ⟨c.name, rt, rc⟩ else none
      | _ => none))

/-- Decimal rendering of a Python int interpolated into an f-string. -/
def natPy (n : Nat) : PyStr := (Nat.repr n).data

/-- Python `", ".join(xs)` and friends. -/
def pyJoin (sep : PyStr) (xs : List PyStr) : PyStr := List.intercalate sep xs

/-- The model info dict built by both extraction paths
(scaffold_generator.py:284-294 and 496-506). -/
structure ModelInfo where
  name : PyStr
  table_name : PyStr
  fields : List (PyStr × FieldInfo)
  primary_key : PyStr
  user_fk_field : Option PyStr
  non_user_fk_count : Nat
  foreign_key_relationships : List FkRel
  relationships : List RelDecl
  missing_foreign_keys : List MissingFk
  deriving Repr, DecidableEq

/-- One entry of `_find_child_models`' result (scaffold_generator.py:520-527). -/
structure ChildInfo where
  name : PyStr
  table_name : PyStr
  primary_key : PyStr
  fk_field : PyStr
  user_fk_field : Option PyStr
  deriving Repr, DecidableEq

/-- `_find_child_models`, scaffold_generator.py:508-530: every model holding
a foreign-key link to the parent's table, with the first such link's field
(the loop `break`s after the first match per model). -/
def find_child_models (models : List ModelInfo) (parent : ModelInfo) : List ChildInfo :=
  models.filterMap (fun mi =>
    (mi.foreign_key_relationships.find? (fun fk => fk.ref_table = parent.table_name)).map
      (fun fk => ⟨mi.name, mi.table_name, mi.primary_key, fk.field_name, mi.user_fk_field⟩))

/-- `child_table[:-1] if child_table.endswith('s') else child_table`,
scaffold_generator.py:912. -/
def child_table_singular_name (child_table : PyStr) : PyStr :=
  if pyEndsWith child_table (py "s") then child_table.dropLast else child_table

/-- The lines of one `generate_parent_child_routes` block
(scaffold_generator.py:915-956): the f-string split on newlines, leading
and trailing empty lines included (the literal starts and ends with a
newline). -/
def parent_child_route_lines (parent_name parent_table parent_pk : PyStr)
    (child : ChildInfo) (fk_field : PyStr) : List PyStr :=
  let cn := child.name
  let ct := child.table_name
  let sing := child_table_singular_name ct
  [ py "",
    py "",
    py "# " ++ List.replicate 60 '=',
    py "# Child Management: " ++ cn ++ py " within " ++ parent_name,
    py "# " ++ List.replicate 60 '=',
    py "",
    py "@" ++ parent_table ++ py "_bp.route('/<int:" ++ parent_pk ++ py ">/add-" ++ sing ++ py "', methods=['GET', 'POST'])",
    py "@login_required",
    py "def add_" ++ ct ++ py "_to_" ++ parent_table ++ py "(" ++ parent_pk ++ py "):",
    py "    \"\"\"Add a " ++ cn ++ py " to this " ++ parent_name ++ py ".\"\"\"",
    py "    parent = " ++ parent_name ++ py ".query.get_or_404(" ++ parent_pk ++ py ")",
    py "",
    py "    # Import child form (model already imported at top)",
    py "    from " ++ ct ++ py ".forms import " ++ cn ++ py "Form",
    py "",
    py "    form = " ++ cn ++ py "Form()",
    py "",
    py "    if form.validate_on_submit():",
    py "        try:",
    py "            item = " ++ cn ++ py "()",
    py "            form.populate_obj(item)",
    py "",
    py "            # Set foreign keys",
    py "            item." ++ fk_field ++ py " = " ++ parent_pk,
    py "            " ++ (if truthy child.user_fk_field
                         then py "item." ++ child.user_fk_field.getD [] ++ py " = current_user.id"
                         else py ""),
    py "",
    py "            db.session.add(item)",
    py "            db.session.commit()",
    py "",
    py "            flash('" ++ cn ++ py " added successfully!', 'success')",
    py "            return redirect(url_for('" ++ parent_table ++ py ".view_" ++ parent_table ++ py "', " ++ parent_pk ++ py "=" ++ parent_pk ++ py "))",
    py "        except Exception as e:",
    py "            db.session.rollback()",
    py "            flash(f'Error adding " ++ cn ++ py ": \x7b\x7bstr(e)\x7d\x7d', 'danger')",
    py "",
    py "    return render_template(",
    py "        '" ++ ct ++ py "/form.html',",
    py "        form=form,",
    py "        title=f'Add " ++ cn ++ py " to \x7b\x7b getattr(parent, 'name', getattr(parent, 'title', getattr(parent, 'company_name', getattr(parent, 'username', str(parent))))) \x7d\x7d',",
    py "        action='create'",
    py "    )",
    py "" ]

/-- The create-route block of `generate_routes_file`
(scaffold_generator.py:664-744), as its list of lines (the f-strings start
and end with a newline, hence the leading and trailing empty lines).  The
first branch (a dependent entity, `non_user_fk_count > 0`) is the inert
commented-out scaffold text, the second the active route. -/
def create_route_lines (model_name blueprint_name : PyStr)
    (user_fk_field : Option PyStr) (non_user_fk_count : Nat) : List PyStr :=
  if non_user_fk_count > 0 then
    [ py "",
      py "# --- NOTE: 'create' route commented out by scaffold generator ---",
      py "# This model appears to be a \"child\" model (it has " ++ natPy non_user_fk_count ++ py " foreign key(s)",
      py "# to models other than User). A simple '/create' route is not",
      py "# practical because it requires context from a \"parent\" object",
      py "# (e.g., a Comment needs a Product ID).",
      py "#",
      py "# You should handle the creation of this object within the",
      py "# \"view\" or \"edit\" route of its parent model.",
      py "# (e.g., add a comment form to the 'view_product' page).",
      py "#",
      py "#",
      py "# @" ++ blueprint_name ++ py "_bp.route('/create', methods=['GET', 'POST'])",
      py "# @login_required",
      py "# def create_" ++ blueprint_name ++ py "():",
      py "#     \"\"\"Create a new " ++ model_name ++ py ".\"\"\"",
      py "#     form = " ++ model_name ++ py "Form()",
      py "#     ",
      py "#     if form.validate_on_submit():",
      py "#         try:",
      py "#             item = " ++ model_name ++ py "()",
      py "#             form.populate_obj(item)",
      py "#             ",
      py "#             # This would require parent IDs from the URL, e.g.:",
      py "#             # item.product_id = request.args.get('product_id')",
      py "#             " ++ (if truthy user_fk_field
                             then py "item." ++ user_fk_field.getD [] ++ py " = current_user.id"
                             else py ""),
      py "#             ",
      py "#             db.session.add(item)",
      py "#             db.session.commit()",
      py "#             ",
      py "#             flash('" ++ model_name ++ py " created successfully!', 'success')",
      py "#             return redirect(url_for('" ++ blueprint_name ++ py ".list_" ++ blueprint_name ++ py "'))",
      py "#         except Exception as e:",
      py "#             db.session.rollback()",
      py "#             flash(f'Error creating " ++ model_name ++ py ": \x7b\x7bstr(e)\x7d\x7d', 'danger')",
      py "#     ",
      py "#     return render_template(",
      py "#         '" ++ blueprint_name ++ py "/form.html',",
      py "#         form=form,",
      py "#         title='Create " ++ model_name ++ py "',",
      py "#         action='create'",
      py "#     )",
      py "" ]
  else
    [ py "",
      py "@" ++ blueprint_name ++ py "_bp.route('/create', methods=['GET', 'POST'])",
      py "@login_required",
      py "def create_" ++ blueprint_name ++ py "():",
      py "    \"\"\"Create a new " ++ model_name ++ py ".\"\"\"",
      py "    form = " ++ model_name ++ py "Form()",
      py "    ",
      py "    if form.validate_on_submit():",
      py "        try:",
      py "            item = " ++ model_name ++ py "()",
      py "            form.populate_obj(item)",
      py "            ",
      py "            " ++ (if truthy user_fk_field
                           then py "item." ++ user_fk_field.getD [] ++ py " = current_user.id"
                           else py "# No user_fk_field found matching 'users.id'"),
      py "            ",
      py "            db.session.add(item)",
      py "            db.session.commit()",
      py "            ",
      py "            flash('" ++ model_name ++ py " created successfully!', 'success')",
      py "            return redirect(url_for('" ++ blueprint_name ++ py ".list_" ++ blueprint_name ++ py "'))",
      py "        except Exception as e:",
      py "            db.session.rollback()",
      py "            flash(f'Error creating " ++ model_name ++ py ": \x7b\x7bstr(e)\x7d\x7d', 'danger')",
      py "    ",
      py "    return render_template(",
      py "        '" ++ blueprint_name ++ py "/form.html',",
      py "        form=form,",
      py "        title='Create " ++ model_name ++ py "',",
      py "        action='create'",
      py "    )",
      py "" ]

/-- The line `    {security_check_block}` of the routes f-string
(scaffold_generator.py:746-755, spliced at 802, 816 and 844), as its list
of lines: the block is empty when no owner field is set, otherwise the
f-string of scaffold_generator.py:750-755, which starts with a newline and
ends with a newline and four spaces. -/
def security_check_spliced (blueprint_name : PyStr) (user_fk_field : Option PyStr) : List PyStr :=
  if truthy user_fk_field then
    [ py "    ",
      py "    # Security check: ensure the current user owns this item",
      py "    if item." ++ user_fk_field.getD [] ++ py " != current_user.id:",
      py "        flash('You do not have permission to access this item.', 'danger')",
      py "        return redirect(url_for('" ++ blueprint_name ++ py ".list_" ++ blueprint_name ++ py "'))",
      py "    " ]
  else [ py "    " ]

/-- `list_query`, scaffold_generator.py:757-760. -/
def list_query (model_name : PyStr) (user_fk_field : Option PyStr) : PyStr :=
  if truthy user_fk_field then
    py "items = " ++ model_name ++ py ".query.filter_by(" ++ user_fk_field.getD [] ++ py "=current_user.id).all()"
  else py "items = " ++ model_name ++ py ".query.all()"

/-- The line `{view_route_child_queries}` of the routes f-string
(scaffold_generator.py:636-644, spliced at 803), as its list of lines:
each child contributes a newline-led two-line block, so the line splits
into an empty line followed by two lines per child. -/
def view_child_query_lines (model_name pk_field : PyStr) (children : List ChildInfo) : List PyStr :=
  [ py "" ] ++ children.flatMap (fun c =>
    [ py "    # Get all " ++ c.table_name ++ py " for this " ++ model_name,
      py "    " ++ c.table_name ++ py " = " ++ c.name ++ py ".query.filter_by(" ++ c.fk_field ++ py "=" ++ pk_field ++ py ").all()" ])

/-- The line `        model_name='{model_name}',{view_template_child_params}`
(scaffold_generator.py:646-648, spliced at 807): each child appends a
newline-led line, so the line splits into itself plus one line per child. -/
def view_template_param_lines (model_name : PyStr) (children : List ChildInfo) : List PyStr :=
  [ py "        model_name='" ++ model_name ++ py "'," ] ++ children.map (fun c =>
    py "        " ++ c.table_name ++ py "=" ++ c.table_name ++ py ",")

/-- `model_imports` / `model_import_string`, scaffold_generator.py:657-662. -/
def model_import_string (model_name : PyStr) (children : List ChildInfo) : PyStr :=
  pyJoin (py ", ")
    (children.foldl (fun acc c => if acc.contains c.name then acc else acc ++ [c.name])
      [model_name])

/-- The line `{additional_child_routes}` of the routes f-string
(scaffold_generator.py:650-655, spliced at 854), as its list of lines:
the concatenation of per-child blocks, each of which ends with a newline
and starts with one, so consecutive blocks share one empty line
(`(block).dropLast ++ rest`); an empty concatenation is the single empty
line. -/
def additional_child_route_lines (model_name blueprint_name pk_field : PyStr)
    (children : List ChildInfo) : List PyStr :=
  children.foldr
    (fun c acc =>
      (parent_child_route_lines model_name blueprint_name pk_field c c.fk_field).dropLast ++ acc)
    [ py "" ]

/-- The full routes artifact of `generate_routes_file`
(scaffold_generator.py:619-896) as its list of lines, before the final
`str.format` pass.  Spliced blocks (`create_route_content`,
`security_check_block`, `view_route_child_queries`,
`view_template_child_params`, `additional_child_routes`) are rendered by
the dedicated definitions above. -/
def routes_file_lines (model_name blueprint_name pk_field : PyStr)
    (user_fk_field : Option PyStr) (non_user_fk_count : Nat)
    (children : List ChildInfo) : List PyStr :=
  [ py "\"\"\"",
    py "Routes for " ++ model_name ++ py " blueprint.",
    py "Auto-generated by Flask Scaffold Generator.",
    py "\"\"\"",
    py "",
    py "from flask import Blueprint, render_template, request, redirect, url_for, flash",
    py "from flask_login import login_required, current_user",
    py "from extensions import db",
    py "from models import " ++ model_import_string model_name children,
    py "from .forms import " ++ model_name ++ py "Form",
    py "",
    py "",
    blueprint_name ++ py "_bp = Blueprint(",
    py "    '" ++ blueprint_name ++ py "',",
    py "    __name__,",
    py "    url_prefix='/" ++ blueprint_name ++ py "',",
    py "    template_folder='../templates/" ++ blueprint_name ++ py "'",
    py ")",
    py "",
    py "",
    py "@" ++ blueprint_name ++ py "_bp.route('/')",
    py "@login_required",
    py "def list_" ++ blueprint_name ++ py "():",
    py "    \"\"\"List all " ++ model_name ++ py " records.\"\"\"",
    py "    " ++ list_query model_name user_fk_field,
    py "    return render_template(",
    py "        '" ++ blueprint_name ++ py "/list.html',",
    py "        items=items,",
    py "        model_name='" ++ model_name ++ py "'",
    py "    )",
    py "" ]
  ++ create_route_lines model_name blueprint_name user_fk_field non_user_fk_count
  ++ [ py "",
    py "@" ++ blueprint_name ++ py "_bp.route('/<int:" ++ pk_field ++ py ">')",
    py "@login_required",
    py "def view_" ++ blueprint_name ++ py "(" ++ pk_field ++ py "):",
    py "    \"\"\"View a single " ++ model_name ++ py ".\"\"\"",
    py "    item = " ++ model_name ++ py ".query.get_or_404(" ++ pk_field ++ py ")" ]
  ++ security_check_spliced blueprint_name user_fk_field
  ++ view_child_query_lines model_name pk_field children
  ++ [ py "    return render_template(",
    py "        '" ++ blueprint_name ++ py "/view.html',",
    py "        item=item," ]
  ++ view_template_param_lines model_name children
  ++ [ py "    )",
    py "",
    py "",
    py "@" ++ blueprint_name ++ py "_bp.route('/<int:" ++ pk_field ++ py ">/edit', methods=['GET', 'POST'])",
    py "@login_required",
    py "def edit_" ++ blueprint_name ++ py "(" ++ pk_field ++ py "):",
    py "    \"\"\"Edit an existing " ++ model_name ++ py ".\"\"\"",
    py "    item = " ++ model_name ++ py ".query.get_or_404(" ++ pk_field ++ py ")" ]
  ++ security_check_spliced blueprint_name user_fk_field
  ++ [ py "    form = " ++ model_name ++ py "Form(obj=item)",
    py "    ",
    py "    if form.validate_on_submit():",
    py "        try:",
    py "            form.populate_obj(item)",
    py "            db.session.commit()",
    py "            ",
    py "            flash('" ++ model_name ++ py " updated successfully!', 'success')",
    py "            return redirect(url_for('" ++ blueprint_name ++ py ".view_" ++ blueprint_name ++ py "', " ++ pk_field ++ py "=" ++ pk_field ++ py "))",
    py "        except Exception as e:",
    py "            db.session.rollback()",
    py "            flash(f'Error updating " ++ model_name ++ py ": \x7b\x7bstr(e)\x7d\x7d', 'danger')",
    py "    ",
    py "    return render_template(",
    py "        '" ++ blueprint_name ++ py "/form.html',",
    py "        form=form,",
    py "        title=f'Edit " ++ model_name ++ py "',",
    py "        action='edit',",
    py "        item=item",
    py "    )",
    py "",
    py "",
    py "@" ++ blueprint_name ++ py "_bp.route('/<int:" ++ pk_field ++ py ">/delete', methods=['POST'])",
    py "@login_required",
    py "def delete_" ++ blueprint_name ++ py "(" ++ pk_field ++ py "):",
    py "    \"\"\"Delete a " ++ model_name ++ py ".\"\"\"",
    py "    item = " ++ model_name ++ py ".query.get_or_404(" ++ pk_field ++ py ")" ]
  ++ security_check_spliced blueprint_name user_fk_field
  ++ [ py "    try:",
    py "        db.session.delete(item)",
    py "        db.session.commit()",
    py "        flash('" ++ model_name ++ py " deleted successfully!', 'success')",
    py "    except Exception as e:",
    py "        db.session.rollback()",
    py "        flash(f'Error deleting " ++ model_name ++ py ": \x7b\x7bstr(e)\x7d\x7d', 'danger')",
    py "    ",
    py "    return redirect(url_for('" ++ blueprint_name ++ py ".list_" ++ blueprint_name ++ py "'))" ]
  ++ additional_child_route_lines model_name blueprint_name pk_field children
  ++ [ py "" ]

/-- The routes artifact generated for one model given the run's model list
(`generate_routes_file`, scaffold_generator.py:619-897): the line list
joined back with newlines is the file's text before the escape-collapsing
`str.format` pass of scaffold_generator.py:858-874. -/
def routes_file_for (models : List ModelInfo) (mi : ModelInfo) : List PyStr :=
  routes_file_lines mi.name mi.table_name mi.primary_key mi.user_fk_field
    mi.non_user_fk_count (find_child_models models mi)

/-- Python `str.format` applied to the assembled artifact
(scaffold_generator.py:858-874): after the f-string evaluation the text
holds braces only as the doubled escapes `\x7b\x7b` and `\x7d\x7d` (the
KeyError guard of scaffold_generator.py:875-893 exists for the case where
it does not), so the pass collapses each doubled brace. -/
def format_escape : PyStr → PyStr
  | [] => []
  | '\x7b' :: '\x7b' :: t => '\x7b' :: format_escape t
  | '\x7d' :: '\x7d' :: t => '\x7d' :: format_escape t
  | c :: t => c :: format_escape t

/-- The text of the routes artifact written for one model
(`generate_routes_file`, scaffold_generator.py:619-897). -/
def routes_artifact (models : List ModelInfo) (mi : ModelInfo) : PyStr :=
  format_escape (pyJoin (py "\n") (routes_file_for models mi))

/-- `fix_missing_foreign_keys`, finding the class block start
(scaffold_generator.py:1442-1446). -/
def class_start_of (lines : List PyStr) (class_name : PyStr) : Option Nat :=
  lines.findIdx? (fun l =>
    List.isPrefixOf (py "class " ++ class_name ++ py "(") (pyStrip l))

/-- `fix_missing_foreign_keys`, finding the class block end
(scaffold_generator.py:1452-1457), translated verbatim: the loop condition
`lines[i].strip().startswith('class ') and not
lines[i].strip().startswith('class ')` is self-contradictory, so the scan
never fires and `class_end` stays `len(lines)`. -/
def class_end_of (lines : List PyStr) (class_start : Nat) : Nat :=
  match (List.range' (class_start + 1) (lines.length - (class_start + 1))).find?
      (fun i =>
        List.isPrefixOf (py "class ") (pyStrip (lines.getD i [])) &&
        !(List.isPrefixOf (py "class ") (pyStrip (lines.getD i [])))) with
  | some i => i
  | none => lines.length

/-- The inserted declaration line (scaffold_generator.py:1484). -/
def fk_line_for (m : MissingFk) : PyStr :=
  py "    " ++ m.missing_fk_column ++ py " = db.Column(db.Integer, db.ForeignKey('"
    ++ m.target_table ++ py ".id'), nullable=False)"

/-- One iteration of the insertion loop of `fix_missing_foreign_keys`
(scaffold_generator.py:1472-1487): the duplicate check scans the *current*
line list over the stale `[class_start, class_end)` index window for the
substring `"{column} = db.Column("`, then inserts at `insert_index` and
advances it.  (`insert_index` never exceeds the list's length here, so
Python's clamping `list.insert` agrees with `List.insertIdx`.) -/
def insert_missing_step (class_start class_end : Nat)
    (st : List PyStr × Nat) (m : MissingFk) : List PyStr × Nat :=
  let seg := (st.1.drop class_start).take (class_end - class_start)
  if seg.any (fun l => hasSub l (m.missing_fk_column ++ py " = db.Column(")) then st
  else (List.insertIdx st.2 (fk_line_for m) st.1, st.2 + 1)

/-- The per-model body of `fix_missing_foreign_keys`
(scaffold_generator.py:1441-1487): locate the class, compute the (broken)
block end, find the last `= db.Column(` line in the window, and insert the
missing foreign-key lines. -/
def fix_model_missing_fks (lines : List PyStr) (class_name : PyStr)
    (missing : List MissingFk) : List PyStr :=
  match class_start_of lines class_name with
  | none => lines
  | some cs =>
    let ce := class_end_of lines cs
    let lci := (List.range' (cs + 1) (ce - (cs + 1))).foldl
      (fun acc i => if hasSub (lines.getD i []) (py "= db.Column(") then i else acc) cs
    let ii := if lci > cs then lci + 1 else cs + 1
    (missing.foldl (insert_missing_step cs ce) (lines, ii)).1

/-- `fix_missing_foreign_keys`, the loop over all models
(scaffold_generator.py:1420-1492), on the split line list of the persisted
source: each model's findings are applied in turn and the lines are joined
back with newlines on write-back. -/
def fix_missing_foreign_keys (lines : List PyStr) (models : List ModelInfo) : List PyStr :=
  models.foldl (fun ls mi => fix_model_missing_fks ls mi.name mi.missing_foreign_keys) lines

/-- The pipeline state `run` acts on (scaffold_generator.py:1666-1719): the
persisted model source and the output tree, the latter as a map from path
to content. -/
structure PipelineState where
  source : PyStr
  files : PyStr → Option PyStr

/-- One artifact write: `Path.write_text` overwrites unconditionally
(e.g. scaffold_generator.py:895-896). -/
def write_file (files : PyStr → Option PyStr) (path content : PyStr) : PyStr → Option PyStr :=
  fun q => if q = path then some content else files q

/-- Writing a list of artifacts in order. -/
def write_all (files : PyStr → Option PyStr) (arts : List (PyStr × PyStr)) : PyStr → Option PyStr :=
  arts.foldl (fun fs a => write_file fs a.1 a.2) files

/-- The artifacts one run emits, per discovered model, at their per-entity
paths (scaffold_generator.py:1687-1704; the routes artifact stands for the
per-model emissions, each of which is the same kind of pure function of the
discovered models). -/
def run_artifacts (models : List ModelInfo) : List (PyStr × PyStr) :=
  models.map (fun mi => (mi.table_name ++ py "/routes.py", routes_artifact models mi))

/-- `run`, scaffold_generator.py:1666-1719, over an extraction function
(model discovery from the source text: the live-import or text-parsing
extractor of `discover_models`, a pure function of the source) and a
source transform (the write-back of `fix_missing_foreign_keys` composed
with `add_user_model`, scaffold_generator.py:1706-1712): generation reads
the models discovered from the pre-run source, writes every artifact
unconditionally, then the source store is rewritten. -/
def run_pipeline (extract : PyStr → List ModelInfo) (transform : PyStr → PyStr)
    (st : PipelineState) : PipelineState :=
  let models := extract st.source
  { source := transform st.source
    files := write_all st.files (run_artifacts models) }

/-- A two-class model source for exercising the repair pass: `Category`
declares a `widgets` relationship with no backing column, and a later class
`Widget` has column declarations of its own. -/
def repair_demo_lines : List PyStr :=
  [ py "class Category(db.Model):",
    py "    __tablename__ = 'categories'",
    py "    id = db.Column(db.Integer, primary_key=True)",
    py "    name = db.Column(db.String(100))",
    py "    widgets = db.relationship('Widget')",
    py "",
    py "class Widget(db.Model):",
    py "    __tablename__ = 'widgets'",
    py "    id = db.Column(db.Integer, primary_key=True)",
    py "    title = db.Column(db.String(50))" ]

/-- The finding the analyzer computes for `Category`'s `widgets`
relationship in `repair_demo_lines`. -/
def repair_demo_finding : MissingFk :=
  ⟨py "widgets", py "Widget", py "widgets_id", py "widgets"⟩

/-- A live column whose single foreign key references the owner table's
`email` column rather than `users.id`. -/
def owner_email_col : LiveColumn :=
  ⟨py "owner_ref", py "Integer", false, false, none, false, none, [py "users.email"]⟩

/-- A many-to-many association (join-table marker set). -/
def demo_m2m_rel : RelDecl :=
  ⟨py "tags", py "Tag", none, none, true, some (py "post_tags")⟩

/-- An association with no inverse name. -/
def demo_plain_rel : RelDecl :=
  ⟨py "widget", py "Widget", none, none, false, none⟩

/-- An association with inverse name `owner`. -/
def demo_owner_rel : RelDecl :=
  ⟨py "widget", py "Widget", some (py "owner"), none, false, none⟩

/-- A foreign-key link to the `widgets` table under a non-conventional
column name. -/
def demo_widget_link : FkRel := ⟨py "w_ref", py "widgets", py "id"⟩

/-- The active (uncommented) create-route decorator line the generator
emits for a top-level entity (scaffold_generator.py:716). -/
def active_create_line (blueprint_name : PyStr) : PyStr :=
  py "@" ++ blueprint_name ++ py "_bp.route('/create', methods=['GET', 'POST'])"

/-- A child entity whose table name ends in `ies`. -/
def demo_child_categories : ChildInfo :=
  ⟨py "Category", py "categories", py "id", py "parent_id", none⟩

/-- A concrete top-level entity (no non-owner foreign keys). -/
def demo_task_model : ModelInfo :=
  ⟨py "Task", py "tasks", [], py "id", some (py "user_id"), 0, [], [], []⟩

/-- A concrete dependent entity (one non-owner foreign key). -/
def demo_comment_model : ModelInfo :=
  ⟨py "Comment", py "comments", [], py "id", some (py "user_id"), 1,
   [⟨py "product_id", py "products", py "id"⟩], [], []⟩

/-- A tiny pipeline state for exercising the run/re-run behaviour. -/
def demo_pipeline_state : PipelineState :=
  ⟨py "class Task(db.Model):", fun _ => none⟩

lemma map_dropLast_comm (f : Char → Char) (l : List Char) :
    (l.dropLast).map f = (l.map f).dropLast := by
  induction l with
  | nil => rfl
  | cons a t ih =>
    cases t with
    | nil => rfl
    | cons b t2 => simp [ih]

lemma pyLower_dropLast (s : PyStr) : pyLower s.dropLast = (pyLower s).dropLast := by
  simp [pyLower, map_dropLast_comm]

/-- C8: whenever both table-name lookups fail, `_get_table_name_for_model`
falls back to the deterministic pluralization of the claim: trailing `s`
maps to the lowercased name plus `es`, trailing `y` to the lowercased name
with the `y` removed plus `ies`, anything else to the lowercased name plus
`s`; in particular `Category` maps to `categories` and `Order` to
`orders`. -/
theorem pluralization_fallback (models info : List (PyStr × PyStr)) (name : PyStr)
    (h1 : models.find? (fun m => m.1 = name) = none)
    (h2 : info.find? (fun m => m.1 = name) = none) :
    get_table_name_for_model models info name =
      (if pyEndsWith name (py "s") then pyLower name ++ py "es"
       else if pyEndsWith name (py "y") then (pyLower name).dropLast ++ py "ies"
       else pyLower name ++ py "s")
    ∧ get_table_name_for_model [] [] (py "Category") = py "categories"
    ∧ get_table_name_for_model [] [] (py "Order") = py "orders" := by
  refine ⟨?_, by decide, by decide⟩
  rw [get_table_name_for_model, h1, h2, pyLower_dropLast]

/-- Closed instance of `pluralization_fallback` at name `Category` with
empty lookup environments. -/
theorem pluralization_fallback_witness :
    ([] : List (PyStr × PyStr)).find? (fun m => m.1 = py "Category") = none
    ∧ get_table_name_for_model [] [] (py "Category")
        = (if pyEndsWith (py "Category") (py "s") then pyLower (py "Category") ++ py "es"
           else if pyEndsWith (py "Category") (py "y") then (pyLower (py "Category")).dropLast ++ py "ies"
           else pyLower (py "Category") ++ py "s") :=
  ⟨rfl, (pluralization_fallback [] [] (py "Category") rfl rfl).1⟩

/-- C2: an association with the join-table marker set is skipped by the
relationship analyzer before any column check, so it never yields a
missing-foreign-key finding, on either extraction path (the loop is the
same code on both). -/
theorem many_to_many_never_flagged (models : List (PyStr × PyStr)) (fks : List FkRel)
    (field_names : List PyStr) (rel : RelDecl) (h : rel.is_many_to_many = true) :
    check_rel models fks field_names rel = none := by
  simp [check_rel, h]

/-- Closed instance of `many_to_many_never_flagged` at a concrete
many-to-many association with no columns at all. -/
theorem many_to_many_never_flagged_witness :
    demo_m2m_rel.is_many_to_many = true ∧ check_rel [] [] [] demo_m2m_rel = none :=
  ⟨by decide, many_to_many_never_flagged [] [] [] demo_m2m_rel (by decide)⟩

/-- C7: for a non-many-to-many association, one existing foreign-key link
whose referenced table equals the association's resolved target table
suppresses the finding, whatever the column names are. -/
theorem existing_link_satisfies_association (models : List (PyStr × PyStr))
    (fks : List FkRel) (field_names : List PyStr) (rel : RelDecl)
    (h : rel.is_many_to_many = false) (fk : FkRel) (hmem : fk ∈ fks)
    (ht : fk.ref_table = get_table_name_for_model models [] rel.target_model) :
    check_rel models fks field_names rel = none := by
  have hany : fks.any
      (fun f => f.ref_table = get_table_name_for_model models [] rel.target_model) = true := by
    simp only [List.any_eq_true]
    exact ⟨fk, hmem, by simp [ht]⟩
  simp [check_rel, h, hany]

/-- Closed instance of `existing_link_satisfies_association`: the entity has
a link `w_ref → widgets.id` and no column named `widgets_id`, and the
`widget → Widget` association is still not flagged. -/
theorem existing_link_satisfies_association_witness :
    demo_plain_rel.is_many_to_many = false
    ∧ demo_widget_link.ref_table = get_table_name_for_model [] [] demo_plain_rel.target_model
    ∧ check_rel [] [demo_widget_link] [] demo_plain_rel = none :=
  ⟨by decide, by decide,
   existing_link_satisfies_association [] [demo_widget_link] [] demo_plain_rel
     (by decide) demo_widget_link (by simp) (by decide)⟩

/-- C1: the expected foreign-key column name is the declared inverse name
plus `_id` when one is declared (a truthy `backref`, else a truthy
`back_populates`), else the resolved target table name plus `_id`; with no
inverse name and target table `widgets` it is `widgets_id`, with inverse
name `owner` it is `owner_id`; and every finding the analyzer emits carries
exactly this expected name.  Both extraction paths run the same analyzer
code (`check_rel`). -/
theorem expected_fk_column_naming (rel : RelDecl) (t : PyStr)
    (models : List (PyStr × PyStr)) (fks : List FkRel) (fns : List PyStr) :
    (∀ i, truthy rel.backref = true → rel.backref = some i →
        expected_fk_col rel t = i ++ py "_id")
    ∧ (truthy rel.backref = false → ∀ i, truthy rel.back_populates = true →
        rel.back_populates = some i → expected_fk_col rel t = i ++ py "_id")
    ∧ (truthy rel.backref = false → truthy rel.back_populates = false →
        expected_fk_col rel t = t ++ py "_id")
    ∧ expected_fk_col demo_plain_rel (py "widgets") = py "widgets_id"
    ∧ expected_fk_col demo_owner_rel (py "widgets") = py "owner_id"
    ∧ (∀ f, check_rel models fks fns rel = some f →
        f.missing_fk_column
          = expected_fk_col rel (get_table_name_for_model models [] rel.target_model)) := by
  refine ⟨?_, ?_, ?_, by decide, by decide, ?_⟩
  · intro i hb hbe; rw [hbe] at hb; simp [expected_fk_col, hbe, hb]
  · intro hb i hp hpe; rw [hpe] at hp; simp [expected_fk_col, hb, hpe, hp]
  · intro hb hp; simp [expected_fk_col, hb, hp]
  · intro f hf
    by_cases hm : rel.is_many_to_many = true
    · simp [check_rel, hm] at hf
    · simp only [check_rel, if_neg hm] at hf
      split at hf
      · exact absurd hf (by simp)
      · split at hf
        · exact absurd hf (by simp)
        · cases hf; rfl

/-- Closed instance of `expected_fk_column_naming`: the two concrete naming
cases of the claim. -/
theorem expected_fk_column_naming_witness :
    truthy demo_plain_rel.backref = false
    ∧ truthy demo_plain_rel.back_populates = false
    ∧ expected_fk_col demo_plain_rel (py "widgets") = py "widgets" ++ py "_id"
    ∧ truthy demo_owner_rel.backref = true
    ∧ expected_fk_col demo_owner_rel (py "widgets") = py "owner" ++ py "_id" :=
  ⟨by decide, by decide,
   (expected_fk_column_naming demo_plain_rel (py "widgets") [] [] []).2.2.1
     (by decide) (by decide),
   by decide,
   (expected_fk_column_naming demo_owner_rel (py "widgets") [] [] []).1
     (py "owner") (by decide) (by decide)⟩

lemma scan_fields_shape (cols : List (PyStr × PyStr)) (st : ParsedScan) :
    (cols.foldl scan_columns_step st).fields
      = st.fields ++ cols.map (fun cl => (cl.1, parse_column_definition cl.1 cl.2)) := by
  induction cols generalizing st with
  | nil => simp
  | cons c t ih =>
    rw [List.foldl_cons, ih]
    have hstep : (scan_columns_step st c).fields
        = st.fields ++ [(c.1, parse_column_definition c.1 c.2)] := by
      simp only [scan_columns_step]
      repeat' split
      all_goals rfl
    rw [hstep]; simp

lemma live_fields_shape (cols : List LiveColumn) (st : LiveScan) :
    (cols.foldl live_scan_step st).fields
      = st.fields ++ cols.map (fun c => (c.name, extract_live_field c)) := by
  induction cols generalizing st with
  | nil => simp
  | cons c t ih =>
    rw [List.foldl_cons, ih]
    have hstep : (live_scan_step st c).fields
        = st.fields ++ [(c.name, extract_live_field c)] := by
      simp only [live_scan_step]
      repeat' split
      all_goals rfl
    rw [hstep]; simp

/-- C4: a foreign-key column always gets `skip_in_form = true`: on the
text-parsing path the flag is set exactly when the column definition
mentions `ForeignKey`, on the live path exactly when the column carries
foreign keys; and every field descriptor either path produces comes from
`parse_column_definition` / `extract_live_field` applied to one of the
entity's columns, so the invariant holds for all emitted descriptors. -/
theorem foreign_key_skip_in_form :
    (∀ n d, hasSub d (py "ForeignKey") = true →
        (parse_column_definition n d).skip_in_form = true)
    ∧ (∀ c : LiveColumn, c.foreign_keys ≠ [] →
        (extract_live_field c).skip_in_form = true)
    ∧ (∀ cols e, e ∈ (scan_columns cols).fields →
        ∃ cl, cl ∈ cols ∧ e = (cl.1, parse_column_definition cl.1 cl.2))
    ∧ (∀ cols e, e ∈ (live_scan cols).fields →
        ∃ c, c ∈ cols ∧ e = (c.name, extract_live_field c)) := by
  refine ⟨?_, ?_, ?_, ?_⟩
  · intro n d h; simp [parse_column_definition, h]
  · intro c h
    cases hfk : c.foreign_keys with
    | nil => exact absurd hfk h
    | cons x xs => simp [extract_live_field, hfk]
  · intro cols e he
    rw [scan_columns, scan_fields_shape] at he
    simp only [List.nil_append, List.mem_map] at he
    obtain ⟨cl, hcl, rfl⟩ := he
    exact ⟨cl, hcl, rfl⟩
  · intro cols e he
    rw [live_scan, live_fields_shape] at he
    simp only [List.nil_append, List.mem_map] at he
    obtain ⟨c, hc, rfl⟩ := he
    exact ⟨c, hc, rfl⟩

/-- Closed instance of `foreign_key_skip_in_form` at a parsed foreign-key
column and a live foreign-key column. -/
theorem foreign_key_skip_in_form_witness :
    hasSub (py "db.Integer, db.ForeignKey('users.id'), nullable=False") (py "ForeignKey") = true
    ∧ (parse_column_definition (py "user_id")
        (py "db.Integer, db.ForeignKey('users.id'), nullable=False")).skip_in_form = true
    ∧ (extract_live_field owner_email_col).skip_in_form = true :=
  ⟨by decide,
   foreign_key_skip_in_form.1 (py "user_id")
     (py "db.Integer, db.ForeignKey('users.id'), nullable=False") (by decide),
   foreign_key_skip_in_form.2.1 owner_email_col (by decide)⟩

lemma getLast?_cons' {β : Type} (a : β) (l : List β) :
    (a :: l).getLast? = some (l.getLast?.getD a) := by
  induction l generalizing a with
  | nil => rfl
  | cons b t ih => rw [List.getLast?_cons_cons, ih b]; simp [ih b]

lemma live_inner_foldl (fks : List PyStr) (b : Bool) (n : Nat) :
    fks.foldl (fun (p : Bool × Nat) fk =>
        if fk = py "users.id" then (true, p.2) else (p.1, p.2 + 1)) (b, n)
      = (b || fks.any (fun fk => fk = py "users.id"),
         n + fks.countP (fun fk => !(decide (fk = py "users.id")))) := by
  induction fks generalizing b n with
  | nil => simp
  | cons f t ih =>
    by_cases hf : f = py "users.id"
    · simp [hf, ih]
    · simp [hf, ih, Nat.add_comm, Nat.add_assoc, Nat.add_left_comm]

lemma scan_cnt (cols : List (PyStr × PyStr)) (st : ParsedScan) :
    (cols.foldl scan_columns_step st).non_user_fk_count
      = st.non_user_fk_count
        + cols.countP (fun cl => hasSub cl.2 (py "ForeignKey")
            && match find_fk_target cl.2 with
               | some p => !(decide (p.1 = py "users"))
               | none => false) := by
  induction cols generalizing st with
  | nil => simp
  | cons c t ih =>
    rw [List.foldl_cons, ih, List.countP_cons]
    by_cases hs : hasSub c.2 (py "ForeignKey") = true
    · cases hft : find_fk_target c.2 with
      | none => simp [scan_columns_step, hs, hft]
      | some p =>
        obtain ⟨rt, rc⟩ := p
        by_cases hu : rt = py "users"
        · simp [scan_columns_step, hs, hft, hu]
        · simp [scan_columns_step, hs, hft, hu, Nat.add_comm, Nat.add_assoc,
            Nat.add_left_comm]
    · simp [scan_columns_step, hs]

lemma scan_ufk (cols : List (PyStr × PyStr)) (st : ParsedScan) :
    (cols.foldl scan_columns_step st).user_fk_field
      = match ((cols.filter (fun cl => hasSub cl.2 (py "ForeignKey")
            && match find_fk_target cl.2 with
               | some p => decide (p.1 = py "users")
               | none => false)).map Prod.fst).getLast? with
        | some y => some y
        | none => st.user_fk_field := by
  induction cols generalizing st with
  | nil => simp
  | cons c t ih =>
    rw [List.foldl_cons, ih, List.filter_cons]
    by_cases hs : hasSub c.2 (py "ForeignKey") = true
    · cases hft : find_fk_target c.2 with
      | none => simp [scan_columns_step, hs, hft]
      | some p =>
        obtain ⟨rt, rc⟩ := p
        by_cases hu : rt = py "users"
        · simp only [hs, hft, hu, decide_True, Bool.and_true, if_true, List.map_cons,
            getLast?_cons', scan_columns_step]
          cases hM : ((t.filter _).map Prod.fst).getLast? <;> simp [hM]
        · simp [scan_columns_step, hs, hft, hu]
    · simp [scan_columns_step, hs]

lemma live_scan_cnt (cols : List LiveColumn) (st : LiveScan) :
    (cols.foldl live_scan_step st).non_user_fk_count
      = st.non_user_fk_count
        + (cols.map (fun c =>
            c.foreign_keys.countP (fun fk => !(decide (fk = py "users.id"))))).sum := by
  induction cols generalizing st with
  | nil => simp
  | cons c t ih =>
    rw [List.foldl_cons, ih]
    by_cases he : c.foreign_keys.isEmpty
    · have hfk : c.foreign_keys = [] := by simpa [List.isEmpty_iff] using he
      simp [live_scan_step, he, hfk]
    · simp only [live_scan_step, he, if_false, Bool.false_eq_true, live_inner_foldl]
      simp [Nat.add_assoc]

lemma live_scan_ufk (cols : List LiveColumn) (st : LiveScan) :
    (cols.foldl live_scan_step st).user_fk_field
      = match ((cols.filter (fun c =>
            c.foreign_keys.any (fun fk => decide (fk = py "users.id")))).map
              LiveColumn.name).getLast? with
        | some y => some y
        | none => st.user_fk_field := by
  induction cols generalizing st with
  | nil => simp
  | cons c t ih =>
    rw [List.foldl_cons, ih, List.filter_cons]
    by_cases ha : c.foreign_keys.any (fun fk => decide (fk = py "users.id")) = true
    · have hne : c.foreign_keys.isEmpty = false := by
        cases hfk : c.foreign_keys with
        | nil => rw [hfk] at ha; simp at ha
        | cons x xs => rfl
      simp only [ha, if_true, List.map_cons, getLast?_cons']
      have hstep : (live_scan_step st c).user_fk_field = some c.name := by
        simp [live_scan_step, hne, live_inner_foldl, ha]
      rw [hstep]
      cases hM : ((t.filter _).map LiveColumn.name).getLast? <;> simp [hM]
    · have hstep : (live_scan_step st c).user_fk_field = st.user_fk_field := by
        by_cases hne : c.foreign_keys.isEmpty
        · simp [live_scan_step, hne]
        · simp [live_scan_step, hne, live_inner_foldl, ha]
      simp [ha, hstep]

/-- C6 (amended): the parse-path scan counts as non-owner exactly the
columns whose parsed `ForeignKey(...)` target table differs from `users`
and sets the owner field to the last column whose target table is `users`;
the live-path scan tests the full reference `users.id` instead, so a
foreign key to any other column — another column of the owner table
included — is counted as non-owner, and the owner field is the last column
one of whose foreign keys is exactly `users.id`.  Both are functions of
the entity's own columns alone. -/
theorem owner_classification_amended (cols : List (PyStr × PyStr)) (lcols : List LiveColumn) :
    (scan_columns cols).non_user_fk_count
      = cols.countP (fun cl => hasSub cl.2 (py "ForeignKey")
          && match find_fk_target cl.2 with
             | some p => !(decide (p.1 = py "users"))
             | none => false)
    ∧ (scan_columns cols).user_fk_field
      = ((cols.filter (fun cl => hasSub cl.2 (py "ForeignKey")
          && match find_fk_target cl.2 with
             | some p => decide (p.1 = py "users")
             | none => false)).map Prod.fst).getLast?
    ∧ (live_scan lcols).non_user_fk_count
      = (lcols.map (fun c =>
          c.foreign_keys.countP (fun fk => !(decide (fk = py "users.id"))))).sum
    ∧ (live_scan lcols).user_fk_field
      = ((lcols.filter (fun c =>
          c.foreign_keys.any (fun fk => decide (fk = py "users.id")))).map
            LiveColumn.name).getLast? := by
  refine ⟨?_, ?_, ?_, ?_⟩
  · rw [scan_columns, scan_cnt]; exact Nat.zero_add _
  · rw [scan_columns, scan_ufk]
    cases hM : ((cols.filter _).map Prod.fst).getLast? <;> simp [hM]
  · rw [live_scan, live_scan_cnt]; exact Nat.zero_add _
  · rw [live_scan, live_scan_ufk]
    cases hM : ((lcols.filter _).map LiveColumn.name).getLast? <;> simp [hM]

/-- C6 counterexample: on the live path a foreign key whose target table is
the owner table but whose target column is not `id` (`users.email`) does
not set `ownerForeignKeyField` and does increment `nonOwnerForeignKeyCount`,
refuting the claim that a link whose target *table* is the owner table
always sets the owner field on both paths. -/
theorem owner_classification_live_counterexample :
    ¬ ((live_scan [owner_email_col]).user_fk_field = some (py "owner_ref")
       ∧ (live_scan [owner_email_col]).non_user_fk_count = 0) := by decide

/-- C3 (code bug evidence): on `repair_demo_lines` the analyzer flags
`Category`'s `widgets` association, but the repair pass appends the new
column after the *last* `db.Column(` line of the whole remaining file —
inside the later `Widget` class — because the block-end scan's condition
(`startswith('class ') and not startswith('class ')`,
scaffold_generator.py:1455) can never fire and `class_end` stays at the end
of the file.  The claim's position (immediately after `Category`'s last
column, index 4) is not where the line lands (index 10, after `Widget`'s
columns). -/
theorem repair_insert_after_later_class :
    class_end_of repair_demo_lines 0 = 10
    ∧ missing_fks_of [(py "Category", py "categories"), (py "Widget", py "widgets")]
        [] [py "id", py "name"] [⟨py "widgets", py "Widget", none, none, false, none⟩]
        = [repair_demo_finding]
    ∧ fix_model_missing_fks repair_demo_lines (py "Category") [repair_demo_finding]
        = repair_demo_lines ++ [fk_line_for repair_demo_finding] := by decide

/-- C10: the nested child-creation route's path segment is `add-` followed
by the child's table name with exactly one trailing `s` removed when it
ends in `s` and unchanged otherwise; in particular a child table
`categories` yields `add-categorie`, not `add-category`. -/
theorem child_route_singularization (mn bp pk : PyStr) (c : ChildInfo) (fk : PyStr) :
    (py "@" ++ bp ++ py "_bp.route('/<int:" ++ pk ++ py ">/add-"
      ++ child_table_singular_name c.table_name ++ py "', methods=['GET', 'POST'])")
      ∈ parent_child_route_lines mn bp pk c fk
    ∧ (pyEndsWith c.table_name (py "s") = true →
        child_table_singular_name c.table_name = c.table_name.dropLast)
    ∧ (pyEndsWith c.table_name (py "s") = false →
        child_table_singular_name c.table_name = c.table_name)
    ∧ child_table_singular_name (py "categories") = py "categorie" := by
  refine ⟨?_, ?_, ?_, by decide⟩
  · simp [parent_child_route_lines]
  · intro h; simp [child_table_singular_name, h]
  · intro h; simp [child_table_singular_name, h]

/-- Closed instance of `child_route_singularization` at child table
`categories`. -/
theorem child_route_singularization_witness :
    pyEndsWith (py "categories") (py "s") = true
    ∧ child_table_singular_name (py "categories") = (py "categories").dropLast :=
  ⟨by decide,
   (child_route_singularization (py "Parent") (py "parents") (py "id")
      demo_child_categories (py "parent_id")).2.1 (by decide)⟩

lemma ne_act_cons (bp : PyStr) (c : Char) (t : PyStr) (h : c ≠ '@') :
    c :: t ≠ active_create_line bp := by
  intro he
  have h2 : (c :: t).head? = some '@' := he ▸ rfl
  simp at h2
  exact h h2

lemma ne_act_nil (bp : PyStr) : ([] : PyStr) ≠ active_create_line bp := by
  intro h
  exact List.noConfusion h

lemma act_length (bp : PyStr) : (active_create_line bp).length = bp.length + 46 := by
  simp [active_create_line, py, List.length_append]

lemma ne_act_blueprint (bp : PyStr) :
    bp ++ py "_bp = Blueprint(" ≠ active_create_line bp := by
  intro h
  have h2 := congrArg List.length h
  rw [act_length] at h2
  simp [py, List.length_append] at h2

lemma ne_act_login (bp : PyStr) : py "@login_required" ≠ active_create_line bp := by
  intro h
  have h2 := congrArg List.length h
  rw [act_length] at h2
  simp [py] at h2

lemma take_append_concrete {α : Type} {l1 : List α} {n : Nat} (h : n ≤ l1.length) (Y : List α) :
    (l1 ++ Y).take n = l1.take n := by
  rw [List.take_append_eq_append_take, Nat.sub_eq_zero_of_le h, List.take_zero, List.append_nil]

lemma ne_act_list_dec (bp : PyStr) :
    py "@" ++ bp ++ py "_bp.route('/')" ≠ active_create_line bp := by
  intro h
  unfold active_create_line at h
  rw [List.append_assoc, List.append_assoc] at h
  have h2 := List.append_cancel_left (List.append_cancel_left h)
  exact absurd h2 (by decide)

lemma ne_act_view_dec (bp pk : PyStr) :
    py "@" ++ bp ++ py "_bp.route('/<int:" ++ pk ++ py ">')" ≠ active_create_line bp := by
  intro h
  unfold active_create_line at h
  simp only [List.append_assoc] at h
  have h2 := List.append_cancel_left (List.append_cancel_left h)
  have h3 := congrArg (List.take 13) h2
  rw [take_append_concrete (by decide)] at h3
  exact absurd h3 (by decide)

lemma ne_act_edit_dec (bp pk : PyStr) :
    py "@" ++ bp ++ py "_bp.route('/<int:" ++ pk ++ py ">/edit', methods=['GET', 'POST'])"
      ≠ active_create_line bp := by
  intro h
  unfold active_create_line at h
  simp only [List.append_assoc] at h
  have h2 := List.append_cancel_left (List.append_cancel_left h)
  have h3 := congrArg (List.take 13) h2
  rw [take_append_concrete (by decide)] at h3
  exact absurd h3 (by decide)

lemma ne_act_delete_dec (bp pk : PyStr) :
    py "@" ++ bp ++ py "_bp.route('/<int:" ++ pk ++ py ">/delete', methods=['POST'])"
      ≠ active_create_line bp := by
  intro h
  unfold active_create_line at h
  simp only [List.append_assoc] at h
  have h2 := List.append_cancel_left (List.append_cancel_left h)
  have h3 := congrArg (List.take 13) h2
  rw [take_append_concrete (by decide)] at h3
  exact absurd h3 (by decide)

lemma ne_act_child_dec (bp ppk sing : PyStr) :
    py "@" ++ bp ++ py "_bp.route('/<int:" ++ ppk ++ py ">/add-" ++ sing
      ++ py "', methods=['GET', 'POST'])" ≠ active_create_line bp := by
  intro h
  unfold active_create_line at h
  simp only [List.append_assoc] at h
  have h2 := List.append_cancel_left (List.append_cancel_left h)
  have h3 := congrArg (List.take 13) h2
  rw [take_append_concrete (by decide)] at h3
  exact absurd h3 (by decide)

lemma act_not_mem_security (bp : PyStr) (u : Option PyStr) :
    active_create_line bp ∉ security_check_spliced bp u := by
  intro h
  by_cases ht : truthy u = true
  · rw [security_check_spliced, if_pos ht] at h
    simp only [List.mem_cons, List.not_mem_nil, or_false] at h
    repeat' rcases h with h | h
  · rw [security_check_spliced, if_neg ht] at h
    simp only [List.mem_cons, List.not_mem_nil, or_false] at h
    exact ne_act_cons bp _ _ (by decide) h.symm

lemma act_not_mem_view_queries (mn pk bp : PyStr) (children : List ChildInfo) :
    active_create_line bp ∉ view_child_query_lines mn pk children := by
  intro h
  simp only [view_child_query_lines, List.mem_append, List.mem_cons, List.not_mem_nil,
    or_false, List.mem_flatMap] at h
  rcases h with h | ⟨c, _, h⟩
  · exact ne_act_nil bp h.symm
  · rcases h with h | h
    · exact ne_act_cons bp _ _ (by decide) h.symm
    · exact ne_act_cons bp _ _ (by decide) h.symm

lemma act_not_mem_vtcp (mn bp : PyStr) (children : List ChildInfo) :
    active_create_line bp ∉ view_template_param_lines mn children := by
  intro h
  simp only [view_template_param_lines, List.mem_append, List.mem_cons, List.not_mem_nil,
    or_false, List.mem_map] at h
  rcases h with h | ⟨c, _, h⟩
  · exact ne_act_cons bp _ _ (by decide) h.symm
  · exact ne_act_cons bp _ _ (by decide) h

lemma act_not_mem_child_routes (mn bp pk : PyStr) (c : ChildInfo) (fk : PyStr) :
    active_create_line bp ∉ parent_child_route_lines mn bp pk c fk := by
  intro h
  simp only [parent_child_route_lines, List.mem_cons, List.not_mem_nil, or_false] at h
  repeat' rcases h with h | h
  all_goals first
    | exact ne_act_login bp h.symm
    | exact ne_act_child_dec bp pk (child_table_singular_name c.table_name) h.symm

lemma act_not_mem_acr (mn bp pk : PyStr) (children : List ChildInfo) :
    active_create_line bp ∉ additional_child_route_lines mn bp pk children := by
  induction children with
  | nil =>
    intro h
    simp only [additional_child_route_lines, List.foldr_nil, List.mem_cons,
      List.not_mem_nil, or_false] at h
    exact ne_act_nil bp h.symm
  | cons c t ih =>
    intro h
    simp only [additional_child_route_lines, List.foldr_cons, List.mem_append] at h
    rcases h with h | h
    · exact act_not_mem_child_routes mn bp pk c c.fk_field (List.dropLast_subset _ h)
    · exact ih h

lemma act_not_mem_create_pos (mn bp : PyStr) (u : Option PyStr) (cnt : Nat) (hpos : 0 < cnt) :
    active_create_line bp ∉ create_route_lines mn bp u cnt := by
  intro hm
  rw [create_route_lines, if_pos hpos] at hm
  simp only [List.mem_cons, List.not_mem_nil, or_false] at hm
  repeat' rcases hm with hm | hm

lemma create_lines_commented (mn bp : PyStr) (u : Option PyStr) (cnt : Nat) (hpos : 0 < cnt) :
    ∀ l ∈ create_route_lines mn bp u cnt, l = [] ∨ l.head? = some '#' := by
  intro l hl
  rw [create_route_lines, if_pos hpos] at hl
  simp only [List.mem_cons, List.not_mem_nil, or_false] at hl
  repeat' rcases hl with hl | hl
  all_goals first
    | exact Or.inl rfl
    | exact Or.inr rfl

/-- C5: the generated routes artifact contains the active (uncommented)
create-route decorator line exactly when the entity's non-owner
foreign-key count is zero; when the count is positive, every line of the
emitted create block is empty or starts with `#` (inert commented-out
scaffold text).  Stated on the artifact's line list; the later
`str.format` escape collapse rewrites braces inside lines only, never line
starts. -/
theorem create_route_active_iff (mn bp pk : PyStr) (u : Option PyStr) (cnt : Nat)
    (children : List ChildInfo) :
    (active_create_line bp ∈ routes_file_lines mn bp pk u cnt children ↔ cnt = 0)
    ∧ (0 < cnt → ∀ l ∈ create_route_lines mn bp u cnt, l = [] ∨ l.head? = some '#') := by
  refine ⟨⟨fun hmem => ?_, fun h0 => ?_⟩, fun hpos => create_lines_commented mn bp u cnt hpos⟩
  · by_contra hne
    have hpos : 0 < cnt := Nat.pos_of_ne_zero hne
    have hnm : active_create_line bp ∉ routes_file_lines mn bp pk u cnt children := by
      simp only [routes_file_lines, List.mem_append, List.mem_cons, List.not_mem_nil,
        or_false, not_or]
      repeat' apply And.intro
      all_goals first
        | exact fun he => ne_act_nil bp he.symm
        | exact fun he => ne_act_cons bp _ _ (by decide) he.symm
        | exact fun he => ne_act_login bp he.symm
        | exact fun he => ne_act_blueprint bp he.symm
        | exact fun he => ne_act_list_dec bp he.symm
        | exact fun he => ne_act_view_dec bp pk he.symm
        | exact fun he => ne_act_edit_dec bp pk he.symm
        | exact fun he => ne_act_delete_dec bp pk he.symm
        | exact act_not_mem_security bp u
        | exact act_not_mem_view_queries mn pk bp children
        | exact act_not_mem_vtcp mn bp children
        | exact act_not_mem_acr mn bp pk children
        | exact act_not_mem_create_pos mn bp u cnt hpos
    exact hnm hmem
  · subst h0
    have hc : active_create_line bp ∈ create_route_lines mn bp u 0 := by
      rw [create_route_lines, if_neg (by decide)]
      exact List.mem_cons_of_mem _ (List.mem_cons_self _ _)
    simp only [routes_file_lines, List.mem_append]
    tauto

/-- Closed instance of `create_route_active_iff`: a top-level entity gets
the active create route, and a one-foreign-key entity's create block is
fully commented. -/
theorem create_route_active_iff_witness :
    active_create_line (py "tasks")
      ∈ routes_file_lines (py "Task") (py "tasks") (py "id") (some (py "user_id")) 0 []
    ∧ (0 : Nat) < 1
    ∧ ∀ l ∈ create_route_lines (py "Comment") (py "comments") (some (py "user_id")) 1,
        l = [] ∨ l.head? = some '#' :=
  ⟨(create_route_active_iff (py "Task") (py "tasks") (py "id")
      (some (py "user_id")) 0 []).1.mpr rfl,
   by decide,
   (create_route_active_iff (py "Comment") (py "comments") (py "id")
      (some (py "user_id")) 1 []).2 (by decide)⟩

lemma write_all_not_path (arts : List (PyStr × PyStr)) (f : PyStr → Option PyStr)
    (q : PyStr) (h : ∀ a ∈ arts, a.1 ≠ q) : write_all f arts q = f q := by
  induction arts generalizing f with
  | nil => rfl
  | cons a rest ih =>
    have ha : a.1 ≠ q := h a (List.mem_cons_self a rest)
    have hr : ∀ b ∈ rest, b.1 ≠ q := fun b hb => h b (List.mem_cons_of_mem a hb)
    simp only [write_all, List.foldl_cons]
    rw [show (rest.foldl (fun fs x => write_file fs x.1 x.2) (write_file f a.1 a.2)) q
        = write_all (write_file f a.1 a.2) rest q from rfl]
    rw [ih _ hr]
    unfold write_file
    rw [if_neg (fun he => ha he.symm)]

lemma write_all_congr (arts : List (PyStr × PyStr)) (f g : PyStr → Option PyStr)
    (h : ∀ q, (∀ a ∈ arts, a.1 ≠ q) → f q = g q) (q : PyStr) :
    write_all f arts q = write_all g arts q := by
  induction arts generalizing f g with
  | nil => exact h q (by simp)
  | cons a rest ih =>
    simp only [write_all, List.foldl_cons]
    refine ih (write_file f a.1 a.2) (write_file g a.1 a.2) ?_
    intro p hp
    by_cases hpa : p = a.1
    · simp [write_file, hpa]
    · have : f p = g p := h p (by
        intro b hb
        rcases List.mem_cons.mp hb with rfl | hb2
        · exact fun hc => hpa hc.symm
        · exact hp b hb2)
      simp [write_file, hpa, this]

lemma write_all_indep (arts : List (PyStr × PyStr)) (f g : PyStr → Option PyStr) (q : PyStr)
    (hq : q ∈ arts.map Prod.fst) : write_all f arts q = write_all g arts q := by
  induction arts generalizing f g with
  | nil => simp at hq
  | cons a rest ih =>
    simp only [write_all, List.foldl_cons]
    by_cases hr : q ∈ rest.map Prod.fst
    · exact ih (write_file f a.1 a.2) (write_file g a.1 a.2) hr
    · have hq1 : q = a.1 := by
        rw [List.map_cons] at hq
        rcases List.mem_cons.mp hq with h1 | h1
        · exact h1
        · exact absurd h1 hr
      have hrn : ∀ b ∈ rest, b.1 ≠ q := by
        intro b hb hc
        exact hr (hc ▸ List.mem_map_of_mem Prod.fst hb)
      rw [show (rest.foldl (fun fs x => write_file fs x.1 x.2) (write_file f a.1 a.2))
          = write_all (write_file f a.1 a.2) rest from rfl,
        show (rest.foldl (fun fs x => write_file fs x.1 x.2) (write_file g a.1 a.2))
          = write_all (write_file g a.1 a.2) rest from rfl,
        write_all_not_path _ _ _ hrn, write_all_not_path _ _ _ hrn]
      simp [write_file, hq1]

/-- C9: re-running the pipeline on input unchanged since the first run
(the source transform — repair write-back plus user-model addition — left
the source fixed) reproduces byte-identical artifacts and output state:
generation is a pure function of the source and artifact writes overwrite
unconditionally (the written value at an artifact path does not depend on
the prior output tree). -/
theorem pipeline_rerun_idempotent (extract : PyStr → List ModelInfo)
    (transform : PyStr → PyStr) (st : PipelineState)
    (h : transform st.source = st.source) :
    (run_pipeline extract transform (run_pipeline extract transform st)).source
      = (run_pipeline extract transform st).source
    ∧ (∀ q, (run_pipeline extract transform (run_pipeline extract transform st)).files q
        = (run_pipeline extract transform st).files q)
    ∧ (∀ f g q, q ∈ (run_artifacts (extract st.source)).map Prod.fst →
        (run_pipeline extract transform ⟨st.source, f⟩).files q
          = (run_pipeline extract transform ⟨st.source, g⟩).files q) := by
  refine ⟨?_, ?_, ?_⟩
  · simp [run_pipeline, h]
  · intro q
    simp only [run_pipeline, h]
    exact write_all_congr _ _ _
      (fun p hp => (write_all_not_path (run_artifacts (extract st.source)) st.files p hp).symm ▸
        write_all_not_path (run_artifacts (extract st.source)) st.files p hp) q
  · intro f g q hq
    simp only [run_pipeline]
    exact write_all_indep _ f g q hq

/-- Closed instance of `pipeline_rerun_idempotent` with the identity source
transform and a one-model extraction. -/
theorem pipeline_rerun_idempotent_witness :
    ((fun (s : PyStr) => s) demo_pipeline_state.source = demo_pipeline_state.source)
    ∧ (run_pipeline (fun _ => [demo_task_model]) (fun s => s)
          (run_pipeline (fun _ => [demo_task_model]) (fun s => s) demo_pipeline_state)).source
        = (run_pipeline (fun _ => [demo_task_model]) (fun s => s) demo_pipeline_state).source :=
  ⟨rfl,
   (pipeline_rerun_idempotent (fun _ => [demo_task_model]) (fun s => s)
      demo_pipeline_state rfl).1⟩
